import Mathlib

/-!
Verification of the Item Service (FastAPI CRUD lab, `backend/server.py`).

The service is a set of request handlers over a MongoDB collection of
item documents.  We embed the data model and the handlers shallowly:

* the collection is a `List Doc` in natural (insertion) order;
* `insert_one` appends, `find_one` returns the first match, `update_one`
  with a `$set` document rewrites the first match, `delete_one` removes
  the first match, `count_documents` counts matches;
* Python floats (`price`) are modelled as rationals, Python ints
  (`quantity`) as integers;
* `datetime` values are modelled as integers (e.g. microseconds since
  the epoch).  The Python round trip `datetime.isoformat` /
  `datetime.fromisoformat` is exact, so the stored string form of a
  timestamp is modelled as a wrapper type `IsoString` carrying the
  timestamp, with `isoformat` / `fromisoformat` the two coercions;
* FastAPI/Pydantic request validation runs before the handler body; we
  model the whole endpoint as validation followed by the handler, and
  a raised `HTTPException` as an error result returned together with
  the untouched store;
* the MongoDB `$regex` operator (PCRE) is modelled for the pattern
  subclass actually used in the theorems below: patterns built from
  literal characters and the `.` wildcard.  On that subclass the model
  agrees with PCRE: each literal character matches itself (case-folded
  under the `i` option) and `.` matches any single character;
  `$regex` without anchors searches for a match anywhere in the field,
  and a `^...$`-anchored pattern must match the whole field.
-/

namespace CrudLab

/-- A stored timestamp: the `isoformat` string of a datetime.  The
Python round trip of `isoformat` and `fromisoformat` is exact, so the
string is modelled by the timestamp it denotes. -/
structure IsoString where
  val : Int
deriving DecidableEq, Repr

/-- Serialization of a datetime for storage (`datetime.isoformat`). -/
def isoformat (t : Int) : IsoString := ⟨t⟩

/-- Parsing of a stored timestamp string (`datetime.fromisoformat`). -/
def fromisoformat (s : IsoString) : Int := s.val

/-- A MongoDB document of the `items` collection, as written by
`create_item` (timestamps stored in isoformat string form, `_id`
projected away everywhere by the handlers). -/
structure Doc where
  id : String
  name : String
  description : Option String
  price : ℚ
  quantity : Int
  category : Option String
  created_at : IsoString
  updated_at : IsoString
deriving DecidableEq, Repr

/-- The API response model `Item` (Pydantic): timestamps are datetimes. -/
structure Item where
  id : String
  name : String
  description : Option String
  price : ℚ
  quantity : Int
  category : Option String
  created_at : Int
  updated_at : Int
deriving DecidableEq, Repr

/-- Conversion of a MongoDB document to the API response format
(`serialize_item`), parsing the stored timestamp strings back into
datetimes. -/
def serialize_item (d : Doc) : Item :=
  { id := d.id
    name := d.name
    description := d.description
    price := d.price
    quantity := d.quantity
    category := d.category
    created_at := fromisoformat d.created_at
    updated_at := fromisoformat d.updated_at }

/-- The `items` collection, in insertion order. -/
abbrev Store := List Doc

/-- Model of `db.items.insert_one`. -/
def insert_one (d : Doc) (s : Store) : Store := s ++ [d]

/-- Model of `db.items.find_one(filter)` (with `_id` projected away). -/
def find_one (p : Doc → Bool) (s : Store) : Option Doc := List.find? p s

/-- Model of `db.items.count_documents(filter)`. -/
def count_documents (p : Doc → Bool) (s : Store) : Nat := List.countP p s

/-- Model of `db.items.update_one(filter, set)`: rewrite the first
matching document in place. -/
def update_one (p : Doc → Bool) (f : Doc → Doc) : Store → Store
  | [] => []
  | d :: ds => if p d then f d :: ds else d :: update_one p f ds

/-- Model of `db.items.delete_one(filter)`: remove the first matching
document. -/
def delete_one (p : Doc → Bool) : Store → Store
  | [] => []
  | d :: ds => if p d then ds else d :: delete_one p ds

/-- The filter `{"id": item_id}`. -/
def byId (item_id : String) (d : Doc) : Bool := d.id == item_id

/-- The error taxonomy of the service: `ValidationError` (422 from
Pydantic field validation, 400 for an empty update), `NotFound` (404),
`InternalError` (500). -/
inductive ApiError
  | validation
  | notFound
  | internal
deriving DecidableEq, Repr

/-- Response schema `MessageResponse`. -/
structure MessageResponse where
  message : String
  detail : Option String
deriving DecidableEq, Repr

/-! ### Input schemas and Pydantic validation -/

/-- The `ItemCreate` request body (field values as parsed from JSON,
before the `Field` bound checks). -/
structure ItemInput where
  name : String
  description : Option String
  price : ℚ
  quantity : Int
  category : Option String
deriving DecidableEq, Repr

/-- The Pydantic `Field` constraints of `ItemBase`/`ItemCreate`:
`name` length 1–100, `description` length ≤ 500, `price > 0`,
`quantity ≥ 0`, `category` length ≤ 50. -/
def validItemCreate (i : ItemInput) : Bool :=
  decide (1 ≤ i.name.length) && decide (i.name.length ≤ 100) &&
  (match i.description with
   | none => true
   | some d => decide (d.length ≤ 500)) &&
  decide (0 < i.price) && decide (0 ≤ i.quantity) &&
  (match i.category with
   | none => true
   | some c => decide (c.length ≤ 50))

/-- A field of a JSON request body for a partial update: absent from
the body, present with value `null`, or present with a value. -/
inductive Field3 (α : Type)
  | unset
  | null
  | val (v : α)
deriving DecidableEq, Repr

/-- The `ItemUpdate` request body at the JSON level: every field may be
absent, `null`, or a value. -/
structure ItemUpdate where
  name : Field3 String
  description : Field3 String
  price : Field3 ℚ
  quantity : Field3 Int
  category : Field3 String
deriving DecidableEq, Repr

/-- The result of `item_update.model_dump()`: an absent field and an
explicit `null` both dump to `None`. -/
structure UpdateDump where
  name : Option String
  description : Option String
  price : Option ℚ
  quantity : Option Int
  category : Option String
deriving DecidableEq, Repr

/-- Dump of one field: an absent field and an explicit `null` both
become `None`. -/
def dumpField {α : Type} : Field3 α → Option α
  | .unset => none
  | .null => none
  | .val v => some v

/-- Model of `item_update.model_dump()`. -/
def model_dump (u : ItemUpdate) : UpdateDump :=
  { name := dumpField u.name
    description := dumpField u.description
    price := dumpField u.price
    quantity := dumpField u.quantity
    category := dumpField u.category }

/-- The Pydantic `Field` constraints of `ItemUpdate`: every field is
optional, and a supplied (non-`null`) value must satisfy the same bound
as in `ItemBase`.  A `null` value passes (the constraints only apply to
actual values of the inner type). -/
def validItemUpdate (u : UpdateDump) : Bool :=
  (match u.name with
   | none => true
   | some n => decide (1 ≤ n.length) && decide (n.length ≤ 100)) &&
  (match u.description with
   | none => true
   | some d => decide (d.length ≤ 500)) &&
  (match u.price with
   | none => true
   | some p => decide (0 < p)) &&
  (match u.quantity with
   | none => true
   | some q => decide (0 ≤ q)) &&
  (match u.category with
   | none => true
   | some c => decide (c.length ≤ 50))

/-- Emptiness of `update_data`: every field dumped to `None`, so the
dictionary of non-`None` fields is empty. -/
def isEmptyUpdate (u : UpdateDump) : Bool :=
  u.name.isNone && u.description.isNone && u.price.isNone &&
  u.quantity.isNone && u.category.isNone

/-! ### The `$regex` filters of `get_items`

`query_filter["name"] = {"$regex": search, "$options": "i"}` searches
for a match of the pattern anywhere in `name`, case-insensitively;
`query_filter["category"] = {"$regex": f"^{category}$", "$options": "i"}`
requires the pattern to match the whole `category` value.  The model
covers patterns built from literal characters and the `.` wildcard,
on which it agrees with PCRE. -/

/-- One position of a regex pattern: the `.` wildcard or a literal
character. -/
inductive PatChar
  | any
  | lit (c : Char)
deriving DecidableEq, Repr

/-- Compile a pattern string: `.` is the wildcard, all other
characters are literal.  (Faithful to PCRE on strings that contain no
regex metacharacter other than `.`.) -/
def parsePat (s : String) : List PatChar :=
  s.data.map fun c => if c = '.' then .any else .lit c

/-- Does one pattern position match a character, under the
case-insensitive option `i`? -/
def patCharMatches : PatChar → Char → Bool
  | .any, _ => true
  | .lit c, d => c.toLower == d.toLower

/-- Does the pattern match at the very start of the text? -/
def patFront : List PatChar → List Char → Bool
  | [], _ => true
  | _ :: _, [] => false
  | p :: ps, c :: cs => patCharMatches p c && patFront ps cs

/-- Unanchored `$regex`: does the pattern match anywhere in the text? -/
def patSearch (ps : List PatChar) : List Char → Bool
  | [] => patFront ps []
  | c :: cs => patFront ps (c :: cs) || patSearch ps cs

/-- Anchored `$regex` of the form `^...$`: does the pattern match the
whole text? -/
def patFull : List PatChar → List Char → Bool
  | [], [] => true
  | [], _ :: _ => false
  | _ :: _, [] => false
  | p :: ps, c :: cs => patCharMatches p c && patFull ps cs

/-- The `name` part of `query_filter`: a filter is added only when
`search` is truthy (non-empty). -/
def nameMatches (search : Option String) (d : Doc) : Bool :=
  match search with
  | none => true
  | some sstr =>
    if sstr.isEmpty then true
    else patSearch (parsePat sstr) d.name.data

/-- The `category` part of `query_filter`: a filter is added only when
`category` is truthy (non-empty); a document whose `category` is null
never matches a `$regex`. -/
def categoryMatches (category : Option String) (d : Doc) : Bool :=
  match category with
  | none => true
  | some cstr =>
    if cstr.isEmpty then true
    else
      match d.category with
      | none => false
      | some dc => patFull (parsePat cstr) dc.data

/-- The full `query_filter` of `get_items` (both keys, logical AND). -/
def docMatches (search category : Option String) (d : Doc) : Bool :=
  nameMatches search d && categoryMatches category d

/-! ### Endpoints -/

/-- The handler body of `POST /items` (input already validated):
builds the `Item` with generated id and timestamps, stores its dump
with isoformat timestamp strings, and returns the `Item`. -/
def create_item (item : ItemInput) (genId : String) (now : Int)
    (s : Store) : Item × Store :=
  let item_obj : Item :=
    { id := genId
      name := item.name
      description := item.description
      price := item.price
      quantity := item.quantity
      category := item.category
      created_at := now
      updated_at := now }
  let doc : Doc :=
    { id := item_obj.id
      name := item_obj.name
      description := item_obj.description
      price := item_obj.price
      quantity := item_obj.quantity
      category := item_obj.category
      created_at := isoformat now
      updated_at := isoformat now }
  (item_obj, insert_one doc s)

/-- The `POST /items` endpoint: Pydantic validation of the request
body, then the handler.  A validation failure is a 422 returned before
the handler runs, so the store is untouched. -/
def postItems (raw : ItemInput) (genId : String) (now : Int)
    (s : Store) : Except ApiError Item × Store :=
  if validItemCreate raw then
    let r := create_item raw genId now s
    (Except.ok r.1, r.2)
  else (Except.error ApiError.validation, s)

/-- The paginated response schema of `GET /items`. -/
structure PaginatedItems where
  items : List Item
  total : Nat
  page : Nat
  page_size : Nat
  total_pages : Nat
deriving DecidableEq, Repr

/-- The `GET /items` endpoint: `Query` bounds (`page ≥ 1`,
`1 ≤ page_size ≤ 100`) are checked by FastAPI before the handler; the
handler counts the matches, computes `skip = (page-1)*page_size` and
`total_pages = (total + page_size - 1) // page_size if total > 0 else 1`,
and returns the matching page. -/
def get_items (page page_size : Nat) (search category : Option String)
    (s : Store) : Except ApiError PaginatedItems :=
  if 1 ≤ page ∧ 1 ≤ page_size ∧ page_size ≤ 100 then
    let f := docMatches search category
    let total := count_documents f s
    let skip := (page - 1) * page_size
    let total_pages := if 0 < total then (total + page_size - 1) / page_size else 1
    let items_list := (((List.filter f s).drop skip).take page_size)
    Except.ok
      { items := items_list.map serialize_item
        total := total
        page := page
        page_size := page_size
        total_pages := total_pages }
  else Except.error ApiError.validation

/-- The `GET /items/{item_id}` endpoint. -/
def get_item (item_id : String) (s : Store) : Except ApiError Item :=
  match find_one (byId item_id) s with
  | none => Except.error ApiError.notFound
  | some d => Except.ok (serialize_item d)

/-- Application of the `$set` of `update_data`: each dumped field
overwrites the stored one, `updated_at` is set to the isoformat of the
current time, and all other fields (in particular `id` and
`created_at`) are untouched. -/
def applySet (d : Doc) (u : UpdateDump) (now : Int) : Doc :=
  { id := d.id
    name := u.name.getD d.name
    description := match u.description with
      | none => d.description
      | some v => some v
    price := u.price.getD d.price
    quantity := u.quantity.getD d.quantity
    category := match u.category with
      | none => d.category
      | some v => some v
    created_at := d.created_at
    updated_at := isoformat now }

/-- The `PUT /items/{item_id}` endpoint: Pydantic validation of the
body (422 before the handler), then: existence check (404), empty
`update_data` check (400), `update_one` with `$set`, and a re-fetch of
the updated document.  (If the re-fetch came back empty the handler
would fail serializing `None`; we model that as a 500.)  Every error
leaves the store as the branch left it. -/
def update_item (item_id : String) (item_update : ItemUpdate) (now : Int)
    (s : Store) : Except ApiError Item × Store :=
  if validItemUpdate (model_dump item_update) then
    match find_one (byId item_id) s with
    | none => (Except.error ApiError.notFound, s)
    | some _ =>
      let update_data := model_dump item_update
      if isEmptyUpdate update_data then (Except.error ApiError.validation, s)
      else
        let s' := update_one (byId item_id) (fun d => applySet d update_data now) s
        match find_one (byId item_id) s' with
        | none => (Except.error ApiError.internal, s')
        | some updated => (Except.ok (serialize_item updated), s')
  else (Except.error ApiError.validation, s)

/-- The `DELETE /items/{item_id}` endpoint.  The existence check and
the `delete_one` are two separate store calls, so another writer may
change the store in between: `sCheck` is the store the existence check
sees, `sDel` the store `delete_one` runs on.  A zero `deleted_count`
after a successful existence check is a 500. -/
def delete_item (sCheck sDel : Store) (item_id : String) :
    Except ApiError MessageResponse × Store :=
  match find_one (byId item_id) sCheck with
  | none => (Except.error ApiError.notFound, sDel)
  | some _ =>
    let deleted_count : Nat :=
      if (find_one (byId item_id) sDel).isSome then 1 else 0
    let s' := delete_one (byId item_id) sDel
    if deleted_count = 0 then (Except.error ApiError.internal, s')
    else
      (Except.ok
        { message := "Item deleted successfully"
          detail := some (String.append "Item ID: " item_id) }, s')

/-- The sequential `DELETE`: no concurrent writer, both store calls
see the same collection. -/
def delete_seq (s : Store) (item_id : String) :
    Except ApiError MessageResponse × Store :=
  delete_item s s item_id

/-! ### Statistics -/

/-- Rounding to two decimal places, as in the Python `round(x, 2)`.
(Python uses round-half-even on binary floats; the tie-breaking
direction is irrelevant to every theorem below, and is modelled as
half-up.) -/
def round2 (q : ℚ) : ℚ := ((round (q * 100) : ℤ) : ℚ) / 100

/-- The response of `GET /items/stats/summary`.  `min_price` and
`max_price` are `none` when the keys are absent from the JSON response
(which is what the zero-items early return produces). -/
structure StatsResponse where
  total_items : Nat
  total_quantity : Int
  total_value : ℚ
  average_price : ℚ
  min_price : Option ℚ
  max_price : Option ℚ
  categories : List String
deriving DecidableEq, Repr

/-- Model of `db.items.distinct("category")` followed by the falsy
filter of the handler: the distinct category values, with nulls and
empty strings removed. -/
def distinctCategories (s : Store) : List String :=
  (((s.map Doc.category).dedup).filterMap id).filter fun c => !c.isEmpty

/-- The `GET /items/stats/summary` endpoint: an early return of zeros
(without `min_price`/`max_price` keys) when the collection is empty,
otherwise one `$group` aggregation over all documents
(`$sum`, `$multiply`, `$avg`, `$min`, `$max`) with `total_value` and
`average_price` rounded to two decimals. -/
def get_item_statistics (s : Store) : StatsResponse :=
  let total_items := count_documents (fun _ => true) s
  if total_items = 0 then
    { total_items := 0
      total_quantity := 0
      total_value := 0
      average_price := 0
      min_price := none
      max_price := none
      categories := [] }
  else
    let prices := s.map Doc.price
    { total_items := total_items
      total_quantity := (s.map Doc.quantity).sum
      total_value := round2 ((s.map fun d => d.price * (d.quantity : ℚ)).sum)
      average_price := round2 (prices.sum / (total_items : ℚ))
      min_price := prices.min?
      max_price := prices.max?
      categories := distinctCategories s }

/-! ### Spec-side definitions

The following definitions follow the specification's words (substring
containment, case-insensitive equality), to be compared with the
`$regex` filters the code actually builds. -/

/-- Spec-side: `needle` matches at the start of `hay`, comparing
characters case-insensitively. -/
def frontCI : List Char → List Char → Bool
  | [], _ => true
  | _ :: _, [] => false
  | n :: ns, h :: hs => (n.toLower == h.toLower) && frontCI ns hs

/-- Spec-side: `hay` contains `needle` as a substring,
case-insensitively. -/
def containsCI (needle : List Char) : List Char → Bool
  | [] => frontCI needle []
  | h :: hs => frontCI needle (h :: hs) || containsCI needle hs

/-- Spec-side: the two strings are equal case-insensitively. -/
def eqCI : List Char → List Char → Bool
  | [], [] => true
  | [], _ :: _ => false
  | _ :: _, [] => false
  | a :: as, b :: bs => (a.toLower == b.toLower) && eqCI as bs

/-- A character that PCRE treats literally: not one of the regex
metacharacters `. ^ $ * + ? ( ) [ ] { } | \`. -/
def isRegexLiteral (c : Char) : Bool :=
  !(List.contains
      ['.', Char.ofNat 94, '$', '*', '+', '?', '(', ')', '[', ']',
       Char.ofNat 123, Char.ofNat 125, '|', Char.ofNat 92] c)

/-- The persisted-record invariant of the data model: every stored
document has `price > 0` and `quantity ≥ 0`. -/
def storeInv (s : Store) : Prop := ∀ d ∈ s, 0 < d.price ∧ 0 ≤ d.quantity

/-- Replace an explicit `null` by an absent field. -/
def nullToUnset {α : Type} : Field3 α → Field3 α
  | .null => .unset
  | x => x

/-- Drop every explicit `null` of an update body. -/
def stripNulls (u : ItemUpdate) : ItemUpdate :=
  { name := nullToUnset u.name
    description := nullToUnset u.description
    price := nullToUnset u.price
    quantity := nullToUnset u.quantity
    category := nullToUnset u.category }

/-- The field carries no value: it is absent or an explicit `null`. -/
def isNoValue {α : Type} : Field3 α → Bool
  | .val _ => false
  | _ => true

/-- Every field of the update body is absent or an explicit `null`. -/
def allNoValue (u : ItemUpdate) : Bool :=
  isNoValue u.name && isNoValue u.description && isNoValue u.price &&
  isNoValue u.quantity && isNoValue u.category

/-! ### Helper lemmas about the store operations -/

/-- Characterization of the ceiling division used by `get_items`:
`(t + ps - 1) / ps` is the least number of pages covering `t` items. -/
lemma ceilDivChar (t ps : Nat) (hps : 1 ≤ ps) (ht : 0 < t) :
    t ≤ ((t + ps - 1) / ps) * ps ∧ ((t + ps - 1) / ps - 1) * ps < t := by
  have hps0 : 0 < ps := hps
  have hkey : (t + ps - 1) / ps = (t - 1) / ps + 1 := by
    have h : t + ps - 1 = (t - 1) + ps := by omega
    rw [h, Nat.add_div_right _ hps0]
  have h1 : (t - 1) / ps * ps ≤ t - 1 := Nat.div_mul_le_self _ _
  have h2 : t - 1 < ((t - 1) / ps + 1) * ps :=
    (Nat.div_lt_iff_lt_mul hps0).mp (Nat.lt_succ_self _)
  rw [hkey]
  refine ⟨?_, ?_⟩
  · have h3 : t - 1 + 1 ≤ ((t - 1) / ps + 1) * ps := Nat.succ_le_of_lt h2
    have h4 : t ≤ t - 1 + 1 := by omega
    exact le_trans h4 h3
  · have h5 : (t - 1) / ps + 1 - 1 = (t - 1) / ps := rfl
    rw [h5]
    have h6 : t - 1 < t := by omega
    exact lt_of_le_of_lt h1 h6

/-- Rewriting the first match commutes with looking it up, provided the
rewrite preserves the `id` field. -/
lemma find_one_update_one (item_id : String) (f : Doc → Doc)
    (hf : ∀ d, (f d).id = d.id) (s : Store) :
    find_one (byId item_id) (update_one (byId item_id) f s) =
      (find_one (byId item_id) s).map f := by
  induction s with
  | nil => rfl
  | cons d ds ih =>
    by_cases h : byId item_id d = true
    · have hfd : byId item_id (f d) = true := by
        unfold byId at h ⊢
        rw [hf]
        exact h
      unfold update_one
      rw [if_pos h]
      unfold find_one
      rw [List.find?_cons_of_pos _ hfd, List.find?_cons_of_pos _ h]
      rfl
    · unfold update_one
      rw [if_neg h]
      unfold find_one
      rw [List.find?_cons_of_neg _ h, List.find?_cons_of_neg _ h]
      exact ih

/-- After deleting the first document with a given id from a store with
pairwise distinct ids, no document with that id remains. -/
lemma find_one_delete_one_self (item_id : String) (s : Store)
    (hnd : (s.map Doc.id).Nodup) :
    find_one (byId item_id) (delete_one (byId item_id) s) = none := by
  induction s with
  | nil => rfl
  | cons d ds ih =>
    rw [List.map_cons, List.nodup_cons] at hnd
    obtain ⟨hd, hds⟩ := hnd
    by_cases h : byId item_id d = true
    · unfold delete_one
      rw [if_pos h]
      unfold find_one
      rw [List.find?_eq_none]
      intro x hx hpx
      unfold byId at h hpx
      rw [beq_iff_eq] at h hpx
      refine hd ?_
      rw [h, ← hpx]
      exact List.mem_map_of_mem Doc.id hx
    · unfold delete_one
      rw [if_neg h]
      unfold find_one
      rw [List.find?_cons_of_neg _ h]
      exact ih hds

/-- Deleting by a filter that matches nothing leaves the store as is. -/
lemma delete_one_of_none (item_id : String) (s : Store)
    (h : find_one (byId item_id) s = none) :
    delete_one (byId item_id) s = s := by
  induction s with
  | nil => rfl
  | cons d ds ih =>
    unfold find_one at h ih
    by_cases hpa : byId item_id d = true
    · rw [List.find?_cons_of_pos _ hpa] at h
      exact absurd h (by simp)
    · rw [List.find?_cons_of_neg _ hpa] at h
      unfold delete_one
      rw [if_neg hpa, ih h]

/-- Every document of the store after `update_one` is either an
original document or the rewrite of an original document. -/
lemma mem_update_one {p : Doc → Bool} {f : Doc → Doc} {s : Store} {x : Doc}
    (hx : x ∈ update_one p f s) : x ∈ s ∨ ∃ d ∈ s, x = f d := by
  induction s with
  | nil => cases hx
  | cons d ds ih =>
    unfold update_one at hx
    by_cases h : p d = true
    · rw [if_pos h] at hx
      rcases List.mem_cons.mp hx with h1 | h1
      · exact Or.inr ⟨d, List.mem_cons_self d ds, h1⟩
      · exact Or.inl (List.mem_cons_of_mem _ h1)
    · rw [if_neg h] at hx
      rcases List.mem_cons.mp hx with h1 | h1
      · exact Or.inl (h1 ▸ List.mem_cons_self d ds)
      · rcases ih h1 with h2 | ⟨d2, hd2, he⟩
        · exact Or.inl (List.mem_cons_of_mem _ h2)
        · exact Or.inr ⟨d2, List.mem_cons_of_mem _ hd2, he⟩

/-- An empty update dump trivially satisfies the `ItemUpdate` field
constraints. -/
lemma valid_of_empty (ud : UpdateDump) (h : isEmptyUpdate ud = true) :
    validItemUpdate ud = true := by
  simp only [isEmptyUpdate, Bool.and_eq_true, Option.isNone_iff_eq_none] at h
  obtain ⟨⟨⟨⟨h1, h2⟩, h3⟩, h4⟩, h5⟩ := h
  simp [validItemUpdate, h1, h2, h3, h4, h5]

/-- On an existing id, an update whose dump is empty is rejected with a
400 before the store write. -/
lemma update_empty_rejected (s : Store) (item_id : String)
    (u : ItemUpdate) (now : Int) (d : Doc)
    (hfind : find_one (byId item_id) s = some d)
    (hemp : isEmptyUpdate (model_dump u) = true) :
    update_item item_id u now s = (Except.error ApiError.validation, s) := by
  simp [update_item, valid_of_empty _ hemp, hfind, hemp]

/-- The success path of `update_item`: the first document with the id
is rewritten by the `$set`, re-fetched, and serialized. -/
lemma update_item_success (s : Store) (item_id : String)
    (u : ItemUpdate) (now : Int) (d : Doc)
    (hfind : find_one (byId item_id) s = some d)
    (hval : validItemUpdate (model_dump u) = true)
    (hemp : isEmptyUpdate (model_dump u) = false) :
    update_item item_id u now s =
      (Except.ok (serialize_item (applySet d (model_dump u) now)),
       update_one (byId item_id) (fun x => applySet x (model_dump u) now) s) := by
  have hre := find_one_update_one item_id
    (fun x => applySet x (model_dump u) now) (fun _ => rfl) s
  rw [hfind] at hre
  simp [update_item, hval, hfind, hemp, hre]

/-- Dumping is blind to the difference between `null` and absent. -/
lemma dumpField_nullToUnset {α : Type} (x : Field3 α) :
    dumpField (nullToUnset x) = dumpField x := by
  cases x <;> rfl

/-- Rounding preserves zero. -/
lemma round2_zero : round2 0 = 0 := by
  simp [round2]

/-- Membership in the category list of the statistics response. -/
lemma mem_distinctCategories (s : Store) (c : String) :
    c ∈ distinctCategories s ↔ some c ∈ s.map Doc.category ∧ c ≠ "" := by
  unfold distinctCategories
  rw [List.mem_filter, List.mem_filterMap]
  constructor
  · rintro ⟨⟨a, ha, hac⟩, hne⟩
    rw [List.mem_dedup] at ha
    refine ⟨?_, ?_⟩
    · cases hac
      exact ha
    · intro he
      rw [he] at hne
      exact absurd hne (by decide)
  · rintro ⟨hmem, hne⟩
    refine ⟨⟨some c, List.mem_dedup.mpr hmem, rfl⟩, ?_⟩
    simp only [Bool.not_eq_eq_eq_not, Bool.not_true]
    rw [← Bool.not_eq_true, String.isEmpty_iff]
    exact hne

/-- The category list of the statistics response has no duplicates. -/
lemma nodup_distinctCategories (s : Store) : (distinctCategories s).Nodup := by
  unfold distinctCategories
  refine List.Nodup.filter _ (List.Nodup.filterMap ?_ (List.nodup_dedup _))
  intro a a' b hb hb'
  cases a <;> cases a' <;> simp_all

/-! ### Helper lemmas about the regex model -/

/-- A regex-literal character is not the dot. -/
lemma ne_dot_of_literal {c : Char} (h : isRegexLiteral c = true) : c ≠ '.' := by
  intro he
  rw [he] at h
  simp [isRegexLiteral, List.contains] at h

/-- On metacharacter-free strings the pattern compiler produces only
literal positions. -/
lemma parsePat_literal {s : String}
    (h : ∀ c ∈ s.data, isRegexLiteral c = true) :
    parsePat s = s.data.map PatChar.lit := by
  unfold parsePat
  refine List.map_congr_left ?_
  intro c hc
  rw [if_neg (ne_dot_of_literal (h c hc))]

/-- A fully literal pattern matches at the front exactly when the
needle is a case-insensitive front of the hay. -/
lemma patFront_literal (needle hay : List Char) :
    patFront (needle.map PatChar.lit) hay = frontCI needle hay := by
  induction needle generalizing hay with
  | nil => rfl
  | cons n ns ih =>
    cases hay with
    | nil => rfl
    | cons h hs => simp [patFront, frontCI, patCharMatches, ih]

/-- A fully literal pattern is found in the hay exactly when the needle
is a case-insensitive substring of the hay. -/
lemma patSearch_literal (needle hay : List Char) :
    patSearch (needle.map PatChar.lit) hay = containsCI needle hay := by
  induction hay with
  | nil => exact patFront_literal needle []
  | cons h hs ih => simp [patSearch, containsCI, patFront_literal, ih]

/-- A fully literal anchored pattern matches the whole hay exactly when
the two strings are equal case-insensitively. -/
lemma patFull_literal (needle hay : List Char) :
    patFull (needle.map PatChar.lit) hay = eqCI needle hay := by
  induction needle generalizing hay with
  | nil => cases hay <;> rfl
  | cons n ns ih =>
    cases hay with
    | nil => rfl
    | cons h hs => simp [patFull, eqCI, patCharMatches, ih]

/-! ### C1: the List filters -/

/-- C1 (amended): for a List request whose `search` string is non-empty
and free of regex metacharacters, an item matches the name filter if
and only if its `name` contains `search` as a substring,
case-insensitively; for a non-empty metacharacter-free `category`
string, an item matches the category filter if and only if its
`category` equals the given value case-insensitively; when both are
supplied the two conditions are combined by logical AND, and when
neither is supplied every item matches.  (In general the two strings
are interpreted as PCRE regular expressions, the category one anchored,
so this equivalence does not extend to metacharacter inputs.) -/
theorem c1_list_filters (sstr cstr : String) (d : Doc)
    (hs : sstr ≠ "") (hc : cstr ≠ "")
    (hslit : ∀ c ∈ sstr.data, isRegexLiteral c = true)
    (hclit : ∀ c ∈ cstr.data, isRegexLiteral c = true) :
    docMatches (some sstr) (some cstr) d =
      (containsCI sstr.data d.name.data &&
        (match d.category with
         | none => false
         | some dc => eqCI cstr.data dc.data)) ∧
    docMatches (some sstr) none d = containsCI sstr.data d.name.data ∧
    docMatches none (some cstr) d =
      (match d.category with
       | none => false
       | some dc => eqCI cstr.data dc.data) ∧
    docMatches none none d = true := by
  have hse : sstr.isEmpty = false := by
    rw [← Bool.not_eq_true, String.isEmpty_iff]
    exact hs
  have hce : cstr.isEmpty = false := by
    rw [← Bool.not_eq_true, String.isEmpty_iff]
    exact hc
  cases hcat : d.category with
  | none =>
    simp [docMatches, nameMatches, categoryMatches, hse, hce, hcat,
      parsePat_literal hslit, parsePat_literal hclit, patSearch_literal,
      patFull_literal]
  | some dc =>
    simp [docMatches, nameMatches, categoryMatches, hse, hce, hcat,
      parsePat_literal hslit, parsePat_literal hclit, patSearch_literal,
      patFull_literal]

/-- C1, counterexample to the claim as stated: the search string is fed
to `$regex` unescaped, so the search `"a.c"` matches the name `"abc"`
although `"a.c"` is not a substring of it; and a supplied empty
`category` string is falsy, so no category filter is added and an item
whose category is `"x"` matches although `"x" ≠ ""`. -/
theorem c1_counterexample :
    docMatches (some "a.c") none
      ⟨"i1", "abc", none, 1, 0, some "x", ⟨0⟩, ⟨0⟩⟩ = true ∧
    containsCI "a.c".data "abc".data = false ∧
    docMatches none (some "")
      ⟨"i1", "abc", none, 1, 0, some "x", ⟨0⟩, ⟨0⟩⟩ = true ∧
    eqCI "".data "x".data = false := by
  decide

/-- C1, witness: the amended equivalence evaluated at the search
`"lap"` against the name `"Laptop"`. -/
theorem c1_list_filters_witness :
    docMatches (some "lap") none
      ⟨"i2", "Laptop", none, 1, 0, none, ⟨0⟩, ⟨0⟩⟩ =
      containsCI "lap".data ("Laptop" : String).data :=
  (c1_list_filters "lap" "x" ⟨"i2", "Laptop", none, 1, 0, none, ⟨0⟩, ⟨0⟩⟩
    (by decide) (by decide) (by decide) (by decide)).2.1

/-! ### C2: statistics -/

/-- C2 (amended): Statistics returns the item count, the sum of
`quantity`, the sum of `price × quantity` and the average price (both
rounded to two decimals), the minimum and maximum of `price`, and the
distinct non-empty category values without duplicates; on an empty
store it is a successful response whose numeric aggregates present
(`total_items`, `total_quantity`, `total_value`, `average_price`) are 0
and whose category list is empty, but the `min_price` and `max_price`
keys are omitted rather than reported as 0. -/
theorem c2_statistics (s : Store) :
    (s = [] → get_item_statistics s =
      { total_items := 0, total_quantity := 0, total_value := 0,
        average_price := 0, min_price := none, max_price := none,
        categories := [] }) ∧
    (get_item_statistics s).total_items = s.length ∧
    (get_item_statistics s).total_quantity = (s.map Doc.quantity).sum ∧
    (get_item_statistics s).total_value =
      round2 ((s.map fun d => d.price * (d.quantity : ℚ)).sum) ∧
    (get_item_statistics s).average_price =
      round2 ((s.map Doc.price).sum / (s.length : ℚ)) ∧
    (∀ q : ℚ, (get_item_statistics s).min_price = some q ↔
      q ∈ s.map Doc.price ∧ ∀ p ∈ s.map Doc.price, q ≤ p) ∧
    (∀ q : ℚ, (get_item_statistics s).max_price = some q ↔
      q ∈ s.map Doc.price ∧ ∀ p ∈ s.map Doc.price, p ≤ q) ∧
    (∀ c : String, c ∈ (get_item_statistics s).categories ↔
      some c ∈ s.map Doc.category ∧ c ≠ "") ∧
    (get_item_statistics s).categories.Nodup := by
  haveI anti : Std.Antisymm (fun a b : ℚ => a ≤ b) :=
    ⟨fun h h2 => le_antisymm h h2⟩
  cases s with
  | nil =>
    refine ⟨fun _ => rfl, rfl, rfl, ?_, ?_, ?_, ?_, ?_, ?_⟩
    · show (0 : ℚ) = round2 ((([] : Store).map fun d => d.price * (d.quantity : ℚ)).sum)
      rw [List.map_nil, List.sum_nil, round2_zero]
    · show (0 : ℚ) = round2 ((([] : Store).map Doc.price).sum / ((([] : Store).length : Nat) : ℚ))
      rw [List.map_nil, List.sum_nil, zero_div, round2_zero]
    · intro q
      have hmp : (get_item_statistics ([] : Store)).min_price = none := rfl
      rw [hmp]
      simp
    · intro q
      have hmp : (get_item_statistics ([] : Store)).max_price = none := rfl
      rw [hmp]
      simp
    · intro c
      have hcats : (get_item_statistics ([] : Store)).categories = [] := rfl
      rw [hcats]
      simp
    · exact List.nodup_nil
  | cons a as =>
    have hne : ¬ count_documents (fun _ => true) (a :: as) = 0 := by
      simp [count_documents, List.countP_true]
    have hcnt : count_documents (fun _ => true) (a :: as) = (a :: as).length := by
      simp [count_documents, List.countP_true]
    have hstats : get_item_statistics (a :: as) =
        { total_items := count_documents (fun _ => true) (a :: as)
          total_quantity := ((a :: as).map Doc.quantity).sum
          total_value :=
            round2 (((a :: as).map fun d => d.price * (d.quantity : ℚ)).sum)
          average_price :=
            round2 ((((a :: as).map Doc.price).sum) /
              (count_documents (fun _ => true) (a :: as) : ℚ))
          min_price := ((a :: as).map Doc.price).min?
          max_price := ((a :: as).map Doc.price).max?
          categories := distinctCategories (a :: as) } := by
      simp only [get_item_statistics]
      rw [if_neg hne]
    refine ⟨fun h => absurd h (List.cons_ne_nil a as), ?_, ?_, ?_, ?_, ?_, ?_, ?_, ?_⟩
    · rw [hstats]
      exact hcnt
    · rw [hstats]
    · rw [hstats]
    · rw [hstats]
      show round2 _ = round2 _
      rw [hcnt]
    · intro q
      rw [hstats]
      show (List.map Doc.price (a :: as)).min? = some q ↔
        q ∈ List.map Doc.price (a :: as) ∧
          ∀ p ∈ List.map Doc.price (a :: as), q ≤ p
      exact List.min?_eq_some_iff (fun a => le_refl a) min_choice
        (fun _ _ _ => le_min_iff)
    · intro q
      rw [hstats]
      show (List.map Doc.price (a :: as)).max? = some q ↔
        q ∈ List.map Doc.price (a :: as) ∧
          ∀ p ∈ List.map Doc.price (a :: as), p ≤ q
      exact List.max?_eq_some_iff (fun a => le_refl a) max_choice
        (fun _ _ _ => max_le_iff)
    · intro c
      rw [hstats]
      exact mem_distinctCategories _ c
    · rw [hstats]
      exact nodup_distinctCategories _

/-- C2, counterexample to the claim as stated: on an empty store the
response carries no `min_price`/`max_price` value at all (the keys are
absent), rather than reporting a minimum and maximum of 0. -/
theorem c2_counterexample :
    (get_item_statistics ([] : Store)).min_price = none ∧
    (get_item_statistics ([] : Store)).max_price = none ∧
    (get_item_statistics ([] : Store)).min_price ≠ some 0 ∧
    (get_item_statistics ([] : Store)).max_price ≠ some 0 := by
  refine ⟨rfl, rfl, by decide, by decide⟩

/-- C2, witness: the amended statement evaluated on the empty store. -/
theorem c2_statistics_witness :
    get_item_statistics ([] : Store) =
      { total_items := 0, total_quantity := 0, total_value := 0,
        average_price := 0, min_price := none, max_price := none,
        categories := [] } :=
  (c2_statistics []).1 rfl

/-! ### C3: delete -/

/-- C3: Delete fails with `NotFound` exactly when the existence check
finds no document with the id; when the check finds one but the store
delete removes zero documents (a concurrent deletion), Delete fails
with `InternalError` rather than reporting success; and repeating a
successful sequential Delete on the same id yields `NotFound` (given
pairwise distinct stored ids). -/
theorem c3_delete (sCheck sDel s : Store) (item_id : String) :
    ((delete_item sCheck sDel item_id).1 = Except.error ApiError.notFound ↔
      find_one (byId item_id) sCheck = none) ∧
    (find_one (byId item_id) sCheck ≠ none →
      find_one (byId item_id) sDel = none →
      delete_item sCheck sDel item_id = (Except.error ApiError.internal, sDel)) ∧
    ((s.map Doc.id).Nodup →
      ∀ (m : MessageResponse) (s' : Store),
        delete_seq s item_id = (Except.ok m, s') →
        (delete_seq s' item_id).1 = Except.error ApiError.notFound) := by
  refine ⟨?_, ?_, ?_⟩
  · cases hfind : find_one (byId item_id) sCheck with
    | none => simp [delete_item, hfind]
    | some d =>
      by_cases hz : (find_one (byId item_id) sDel).isSome
      · simp [delete_item, hfind, hz]
      · simp [delete_item, hfind, hz]
  · intro hsome hz
    cases hfind : find_one (byId item_id) sCheck with
    | none => exact absurd hfind hsome
    | some d =>
      have h1 : (find_one (byId item_id) sDel).isSome = false := by
        rw [hz]
        rfl
      simp [delete_item, hfind, h1, delete_one_of_none _ _ hz]
  · intro hnd m s' hdel
    unfold delete_seq at hdel ⊢
    cases hfind : find_one (byId item_id) s with
    | none =>
      rw [delete_item, hfind] at hdel
      simp at hdel
    | some d =>
      have hz : (find_one (byId item_id) s).isSome = true := by
        rw [hfind]
        rfl
      rw [delete_item, hfind] at hdel
      simp only [hz, if_true, if_neg] at hdel
      rw [if_neg (by simp)] at hdel
      rw [Prod.mk.injEq] at hdel
      obtain ⟨h1, h2⟩ := hdel
      rw [← h2]
      have hgone := find_one_delete_one_self item_id s hnd
      simp [delete_item, hgone]

/-- C3, witness: deleting an id from the empty store, the state after a
successful delete of the only item, yields `NotFound`. -/
theorem c3_delete_witness :
    (delete_seq ([] : Store) "i1").1 = Except.error ApiError.notFound :=
  (c3_delete [] [] [⟨"i1", "n", none, 1, 0, none, ⟨0⟩, ⟨0⟩⟩] "i1").2.2
    (by decide)
    ⟨"Item deleted successfully", some (String.append "Item ID: " "i1")⟩
    []
    rfl

/-! ### C4: the persisted-record invariant -/

/-- C4: every successful Create or Update preserves the invariant that
all persisted records satisfy `price > 0` and `quantity ≥ 0` (rejected
or failed calls leave the store unchanged, so the invariant is
preserved by every call); and any Create or Update input violating the
field bounds is rejected with `ValidationError` with no document
written. -/
theorem c4_invariants (raw : ItemInput) (genId : String) (now : Int)
    (s : Store) (item_id : String) (u : ItemUpdate) :
    (storeInv s → storeInv (postItems raw genId now s).2) ∧
    (validItemCreate raw = false →
      postItems raw genId now s = (Except.error ApiError.validation, s)) ∧
    (storeInv s → storeInv (update_item item_id u now s).2) ∧
    (validItemUpdate (model_dump u) = false →
      update_item item_id u now s = (Except.error ApiError.validation, s)) := by
  refine ⟨?_, ?_, ?_, ?_⟩
  · intro hinv
    by_cases hval : validItemCreate raw = true
    · have hbounds : 0 < raw.price ∧ 0 ≤ raw.quantity := by
        simp only [validItemCreate, Bool.and_eq_true, decide_eq_true_eq] at hval
        obtain ⟨⟨⟨⟨⟨ha, hb⟩, hc⟩, hdp⟩, he⟩, hf⟩ := hval
        exact ⟨hdp, he⟩
      simp only [postItems, if_pos hval]
      intro d hd
      unfold create_item insert_one at hd
      rcases List.mem_append.mp hd with h1 | h1
      · exact hinv d h1
      · rw [List.mem_singleton] at h1
        subst h1
        exact ⟨hbounds.1, hbounds.2⟩
    · have hval' : validItemCreate raw = false := by simpa using hval
      simp only [postItems, hval', Bool.false_eq_true, if_false]
      exact hinv
  · intro hval
    simp [postItems, hval]
  · intro hinv
    by_cases hval : validItemUpdate (model_dump u) = true
    · cases hfind : find_one (byId item_id) s with
      | none =>
        simp only [update_item, if_pos hval, hfind]
        exact hinv
      | some d =>
        by_cases hemp : isEmptyUpdate (model_dump u) = true
        · rw [update_empty_rejected s item_id u now d hfind hemp]
          exact hinv
        · have hemp' : isEmptyUpdate (model_dump u) = false := by simpa using hemp
          rw [update_item_success s item_id u now d hfind hval hemp']
          intro x hx
          rcases mem_update_one hx with h1 | ⟨d2, hd2, he⟩
          · exact hinv x h1
          · subst he
            have hdinv := hinv d2 hd2
            constructor
            · cases hp : (model_dump u).price with
              | none => simpa [applySet, hp] using hdinv.1
              | some p =>
                have hpp : 0 < p := by
                  simp only [validItemUpdate, hp, Bool.and_eq_true,
                    decide_eq_true_eq] at hval
                  exact hval.1.1.2
                simpa [applySet, hp] using hpp
            · cases hq : (model_dump u).quantity with
              | none => simpa [applySet, hq] using hdinv.2
              | some q =>
                have hqq : 0 ≤ q := by
                  simp only [validItemUpdate, hq, Bool.and_eq_true,
                    decide_eq_true_eq] at hval
                  exact hval.1.2
                simpa [applySet, hq] using hqq
    · have hval' : validItemUpdate (model_dump u) = false := by simpa using hval
      simp only [update_item, hval', Bool.false_eq_true, if_false]
      exact hinv
  · intro hval
    simp [update_item, hval]

/-- C4, witness: a Create with `price = -100` is rejected with
`ValidationError` and writes nothing, on a store holding one valid
record. -/
theorem c4_invariants_witness :
    postItems ⟨"Laptop", none, -100, 1, none⟩ "id9" 5
        [⟨"i1", "n", none, 1, 0, none, ⟨0⟩, ⟨0⟩⟩] =
      (Except.error ApiError.validation,
        [⟨"i1", "n", none, 1, 0, none, ⟨0⟩, ⟨0⟩⟩]) :=
  (c4_invariants ⟨"Laptop", none, -100, 1, none⟩ "id9" 5
    [⟨"i1", "n", none, 1, 0, none, ⟨0⟩, ⟨0⟩⟩] "i1"
    ⟨.unset, .unset, .unset, .unset, .unset⟩).2.1 (by decide)

/-! ### C5: create then get -/

/-- C5: for every valid Create input and fresh generated id, Create
returns the created record and an immediate Get on the returned id
yields a record equal to it in every field (the timestamp round trip
through the stored isoformat strings is exact). -/
theorem c5_create_then_get (raw : ItemInput) (genId : String) (now : Int)
    (s : Store) (hval : validItemCreate raw = true)
    (hfresh : find_one (byId genId) s = none) :
    (postItems raw genId now s).1 = Except.ok (create_item raw genId now s).1 ∧
    get_item genId (postItems raw genId now s).2 =
      Except.ok (create_item raw genId now s).1 := by
  have hpost : postItems raw genId now s =
      (Except.ok (create_item raw genId now s).1, (create_item raw genId now s).2) := by
    simp [postItems, hval]
  refine ⟨by rw [hpost], ?_⟩
  rw [hpost]
  unfold get_item
  have hfound : find_one (byId genId) (create_item raw genId now s).2 =
      some { id := genId, name := raw.name, description := raw.description,
             price := raw.price, quantity := raw.quantity,
             category := raw.category,
             created_at := isoformat now, updated_at := isoformat now } := by
    unfold find_one at hfresh
    simp only [create_item, insert_one, find_one]
    rw [List.find?_append, hfresh]
    simp [byId]
  rw [hfound]
  rfl

/-- C5, witness: create-then-get round trip evaluated on the empty
store with a concrete input. -/
theorem c5_create_then_get_witness :
    (postItems ⟨"Laptop", none, 999, 10, some "Electronics"⟩ "id9" 5 []).1 =
      Except.ok (create_item ⟨"Laptop", none, 999, 10, some "Electronics"⟩ "id9" 5 []).1 ∧
    get_item "id9"
        (postItems ⟨"Laptop", none, 999, 10, some "Electronics"⟩ "id9" 5 []).2 =
      Except.ok (create_item ⟨"Laptop", none, 999, 10, some "Electronics"⟩ "id9" 5 []).1 :=
  c5_create_then_get ⟨"Laptop", none, 999, 10, some "Electronics"⟩ "id9" 5 []
    (by decide) rfl

/-! ### C6: the update frame -/

/-- C6: a successful Update on an existing id rewrites the first stored
document with the id by exactly the fields present in the dump plus
`updated_at`: the returned (and stored) record keeps `id` and
`created_at`, takes each supplied field value, retains the prior value
of each absent field, and has `updated_at` set to the current time. -/
theorem c6_update_frame (s : Store) (item_id : String) (u : ItemUpdate)
    (now : Int) (d : Doc)
    (hfind : find_one (byId item_id) s = some d)
    (hval : validItemUpdate (model_dump u) = true)
    (hemp : isEmptyUpdate (model_dump u) = false) :
    update_item item_id u now s =
      (Except.ok (serialize_item (applySet d (model_dump u) now)),
       update_one (byId item_id) (fun x => applySet x (model_dump u) now) s) ∧
    (serialize_item (applySet d (model_dump u) now)).id = d.id ∧
    (serialize_item (applySet d (model_dump u) now)).created_at =
      fromisoformat d.created_at ∧
    (serialize_item (applySet d (model_dump u) now)).updated_at = now ∧
    (serialize_item (applySet d (model_dump u) now)).name =
      (model_dump u).name.getD d.name ∧
    (serialize_item (applySet d (model_dump u) now)).price =
      (model_dump u).price.getD d.price ∧
    (serialize_item (applySet d (model_dump u) now)).quantity =
      (model_dump u).quantity.getD d.quantity ∧
    ((model_dump u).description = none →
      (serialize_item (applySet d (model_dump u) now)).description =
        d.description) ∧
    (∀ v, (model_dump u).description = some v →
      (serialize_item (applySet d (model_dump u) now)).description = some v) ∧
    ((model_dump u).category = none →
      (serialize_item (applySet d (model_dump u) now)).category = d.category) ∧
    (∀ v, (model_dump u).category = some v →
      (serialize_item (applySet d (model_dump u) now)).category = some v) ∧
    find_one (byId item_id)
        (update_one (byId item_id) (fun x => applySet x (model_dump u) now) s) =
      some (applySet d (model_dump u) now) := by
  refine ⟨update_item_success s item_id u now d hfind hval hemp,
    rfl, rfl, rfl, rfl, rfl, rfl, ?_, ?_, ?_, ?_, ?_⟩
  · intro h
    simp [serialize_item, applySet, h]
  · intro v h
    simp [serialize_item, applySet, h]
  · intro h
    simp [serialize_item, applySet, h]
  · intro v h
    simp [serialize_item, applySet, h]
  · have hre := find_one_update_one item_id
      (fun x => applySet x (model_dump u) now) (fun _ => rfl) s
    rw [hfind] at hre
    exact hre

/-- C6, witness: updating only the price of a stored record. -/
theorem c6_update_frame_witness :
    update_item "i1" ⟨.unset, .unset, .val 20, .unset, .unset⟩ 7
        [⟨"i1", "X", none, 10, 5, none, ⟨0⟩, ⟨0⟩⟩] =
      (Except.ok (serialize_item (applySet ⟨"i1", "X", none, 10, 5, none, ⟨0⟩, ⟨0⟩⟩
          (model_dump ⟨.unset, .unset, .val 20, .unset, .unset⟩) 7)),
       update_one (byId "i1")
        (fun x => applySet x (model_dump ⟨.unset, .unset, .val 20, .unset, .unset⟩) 7)
        [⟨"i1", "X", none, 10, 5, none, ⟨0⟩, ⟨0⟩⟩]) :=
  (c6_update_frame [⟨"i1", "X", none, 10, 5, none, ⟨0⟩, ⟨0⟩⟩] "i1"
    ⟨.unset, .unset, .val 20, .unset, .unset⟩ 7
    ⟨"i1", "X", none, 10, 5, none, ⟨0⟩, ⟨0⟩⟩ rfl (by decide) (by decide)).1

/-! ### C7: the empty update -/

/-- C7: an Update on an existing id whose body sets no field is
rejected with `ValidationError` (a 400, not a no-op success), and the
store is unchanged by the failed call. -/
theorem c7_empty_update (s : Store) (item_id : String) (u : ItemUpdate)
    (now : Int) (d : Doc)
    (hfind : find_one (byId item_id) s = some d)
    (hemp : isEmptyUpdate (model_dump u) = true) :
    update_item item_id u now s = (Except.error ApiError.validation, s) :=
  update_empty_rejected s item_id u now d hfind hemp

/-- C7, witness: the all-absent update body against a one-record
store. -/
theorem c7_empty_update_witness :
    update_item "i1" ⟨.unset, .unset, .unset, .unset, .unset⟩ 7
        [⟨"i1", "X", none, 10, 5, none, ⟨0⟩, ⟨0⟩⟩] =
      (Except.error ApiError.validation,
        [⟨"i1", "X", none, 10, 5, none, ⟨0⟩, ⟨0⟩⟩]) :=
  c7_empty_update [⟨"i1", "X", none, 10, 5, none, ⟨0⟩, ⟨0⟩⟩] "i1"
    ⟨.unset, .unset, .unset, .unset, .unset⟩ 7
    ⟨"i1", "X", none, 10, 5, none, ⟨0⟩, ⟨0⟩⟩ rfl rfl

/-! ### C9: null fields are treated as absent -/

/-- C9: an Update field explicitly supplied as `null` behaves exactly
like an absent field (replacing every `null` by absent leaves the whole
call unchanged); a body whose supplied fields are all `null` is
rejected on an existing id with `ValidationError` exactly like the
empty body; and a successful Update never clears a present optional
field back to null. -/
theorem c9_null_is_absent (s : Store) (item_id : String) (u : ItemUpdate)
    (now : Int) (d : Doc) :
    update_item item_id (stripNulls u) now s = update_item item_id u now s ∧
    (allNoValue u = true → find_one (byId item_id) s = some d →
      update_item item_id u now s = (Except.error ApiError.validation, s)) ∧
    (∀ (it : Item) (s' : Store),
      update_item item_id u now s = (Except.ok it, s') →
      find_one (byId item_id) s = some d →
      (d.description.isSome → it.description.isSome) ∧
      (d.category.isSome → it.category.isSome)) := by
  have hdump : model_dump (stripNulls u) = model_dump u := by
    simp [model_dump, stripNulls, dumpField_nullToUnset]
  refine ⟨?_, ?_, ?_⟩
  · simp only [update_item, hdump]
  · intro hall hfind
    have hemp : isEmptyUpdate (model_dump u) = true := by
      simp only [allNoValue, Bool.and_eq_true] at hall
      obtain ⟨⟨⟨⟨h1, h2⟩, h3⟩, h4⟩, h5⟩ := hall
      have e1 : dumpField u.name = none := by
        cases hx : u.name <;> simp_all [isNoValue, dumpField]
      have e2 : dumpField u.description = none := by
        cases hx : u.description <;> simp_all [isNoValue, dumpField]
      have e3 : dumpField u.price = none := by
        cases hx : u.price <;> simp_all [isNoValue, dumpField]
      have e4 : dumpField u.quantity = none := by
        cases hx : u.quantity <;> simp_all [isNoValue, dumpField]
      have e5 : dumpField u.category = none := by
        cases hx : u.category <;> simp_all [isNoValue, dumpField]
      simp [isEmptyUpdate, model_dump, e1, e2, e3, e4, e5]
    exact update_empty_rejected s item_id u now d hfind hemp
  · intro it s' heq hfind
    by_cases hval : validItemUpdate (model_dump u) = true
    · by_cases hemp : isEmptyUpdate (model_dump u) = true
      · rw [update_empty_rejected s item_id u now d hfind hemp] at heq
        simp at heq
      · have hemp' : isEmptyUpdate (model_dump u) = false := by simpa using hemp
        rw [update_item_success s item_id u now d hfind hval hemp'] at heq
        rw [Prod.mk.injEq] at heq
        obtain ⟨h1, h2⟩ := heq
        have hit : it = serialize_item (applySet d (model_dump u) now) := by
          cases h1
          rfl
        subst hit
        constructor
        · intro hds
          cases hx : (model_dump u).description with
          | none => simpa [serialize_item, applySet, hx] using hds
          | some v => simp [serialize_item, applySet, hx]
        · intro hcs
          cases hx : (model_dump u).category with
          | none => simpa [serialize_item, applySet, hx] using hcs
          | some v => simp [serialize_item, applySet, hx]
    · have hval' : validItemUpdate (model_dump u) = false := by simpa using hval
      simp [update_item, hval'] at heq

/-- C9, witness: an update supplying only `description = null` on an
existing id behaves like the empty update and is rejected with
`ValidationError`. -/
theorem c9_null_is_absent_witness :
    update_item "i1" ⟨.unset, .null, .unset, .unset, .unset⟩ 7
        [⟨"i1", "X", some "desc", 10, 5, none, ⟨0⟩, ⟨0⟩⟩] =
      (Except.error ApiError.validation,
        [⟨"i1", "X", some "desc", 10, 5, none, ⟨0⟩, ⟨0⟩⟩]) :=
  (c9_null_is_absent [⟨"i1", "X", some "desc", 10, 5, none, ⟨0⟩, ⟨0⟩⟩] "i1"
    ⟨.unset, .null, .unset, .unset, .unset⟩ 7
    ⟨"i1", "X", some "desc", 10, 5, none, ⟨0⟩, ⟨0⟩⟩).2.1 rfl rfl

/-! ### C8: total_pages -/

/-- C8: for every in-range List request the response carries the full
match count (independent of pagination) and
`total_pages = ceil(total / page_size)` when `total > 0` —
characterized by `total ≤ total_pages * page_size` and
`(total_pages - 1) * page_size < total` — and `total_pages = 1` when
`total = 0`. -/
theorem c8_total_pages (page page_size : Nat) (search category : Option String)
    (s : Store) (hp : 1 ≤ page) (hps1 : 1 ≤ page_size) (hps2 : page_size ≤ 100) :
    get_items page page_size search category s =
      Except.ok
        { items := (((s.filter (docMatches search category)).drop
            ((page - 1) * page_size)).take page_size).map serialize_item
          total := count_documents (docMatches search category) s
          page := page
          page_size := page_size
          total_pages :=
            if 0 < count_documents (docMatches search category) s then
              (count_documents (docMatches search category) s + page_size - 1) /
                page_size
            else 1 } ∧
    (count_documents (docMatches search category) s = 0 →
      (if 0 < count_documents (docMatches search category) s then
        (count_documents (docMatches search category) s + page_size - 1) /
          page_size
      else 1) = 1) ∧
    (0 < count_documents (docMatches search category) s →
      count_documents (docMatches search category) s ≤
        (if 0 < count_documents (docMatches search category) s then
          (count_documents (docMatches search category) s + page_size - 1) /
            page_size
        else 1) * page_size ∧
      ((if 0 < count_documents (docMatches search category) s then
          (count_documents (docMatches search category) s + page_size - 1) /
            page_size
        else 1) - 1) * page_size <
        count_documents (docMatches search category) s) := by
  have hcond : 1 ≤ page ∧ 1 ≤ page_size ∧ page_size ≤ 100 := ⟨hp, hps1, hps2⟩
  refine ⟨?_, ?_, ?_⟩
  · simp only [get_items]
    rw [if_pos hcond]
  · intro h
    rw [h]
    simp
  · intro h
    rw [if_pos h]
    exact ceilDivChar _ page_size hps1 h

/-- C8, witness: the default List request on the empty store. -/
theorem c8_total_pages_witness :
    get_items 1 10 none none ([] : Store) =
      Except.ok
        { items := ((((([] : Store).filter (docMatches none none)).drop
            ((1 - 1) * 10)).take 10).map serialize_item)
          total := count_documents (docMatches none none) ([] : Store)
          page := 1
          page_size := 10
          total_pages :=
            if 0 < count_documents (docMatches none none) ([] : Store) then
              (count_documents (docMatches none none) ([] : Store) + 10 - 1) / 10
            else 1 } :=
  (c8_total_pages 1 10 none none [] (by decide) (by decide) (by decide)).1

/-! ### C10: a page past the last page -/

/-- C10: a List request whose page lies past the last page of matches
succeeds with an empty items list while still reporting the full match
count, the requested page and page size, and the total_pages computed
from the full match count. -/
theorem c10_page_past_end (page page_size : Nat)
    (search category : Option String) (s : Store)
    (hp : 1 ≤ page) (hps1 : 1 ≤ page_size) (hps2 : page_size ≤ 100)
    (hpast : count_documents (docMatches search category) s ≤
      (page - 1) * page_size) :
    get_items page page_size search category s =
      Except.ok
        { items := []
          total := count_documents (docMatches search category) s
          page := page
          page_size := page_size
          total_pages :=
            if 0 < count_documents (docMatches search category) s then
              (count_documents (docMatches search category) s + page_size - 1) /
                page_size
            else 1 } := by
  have hcond : 1 ≤ page ∧ 1 ≤ page_size ∧ page_size ≤ 100 := ⟨hp, hps1, hps2⟩
  have hnil : (List.filter (docMatches search category) s).drop
      ((page - 1) * page_size) = [] :=
    List.drop_eq_nil_of_le
      (by rw [← List.countP_eq_length_filter]; exact hpast)
  simp only [get_items]
  rw [if_pos hcond, hnil]
  simp

/-- C10, witness: page 5 of a one-item store is empty but reports the
full count. -/
theorem c10_page_past_end_witness :
    get_items 5 10 none none [⟨"i1", "n", none, 1, 0, none, ⟨0⟩, ⟨0⟩⟩] =
      Except.ok
        { items := []
          total := count_documents (docMatches none none)
            [⟨"i1", "n", none, 1, 0, none, ⟨0⟩, ⟨0⟩⟩]
          page := 5
          page_size := 10
          total_pages :=
            if 0 < count_documents (docMatches none none)
                [⟨"i1", "n", none, 1, 0, none, ⟨0⟩, ⟨0⟩⟩] then
              (count_documents (docMatches none none)
                [⟨"i1", "n", none, 1, 0, none, ⟨0⟩, ⟨0⟩⟩] + 10 - 1) / 10
            else 1 } :=
  c10_page_past_end 5 10 none none [⟨"i1", "n", none, 1, 0, none, ⟨0⟩, ⟨0⟩⟩]
    (by decide) (by decide) (by decide) (by decide)

end CrudLab
